import Mathlib

/-!
# Verification of the COVID-19 dashboard data pipeline

A shallow embedding of the data pipeline of `src/app.py` (a pandas/streamlit
dashboard).  A pandas `DataFrame` of observation records is modelled as a
`List Row`; the raw CSV rows (whose numeric cells may be missing) as
`List RawRow`.  Dates are modelled as integers (day ordinals); the pandas
missing date `NaT` arising from `Series.max()` on an empty frame is modelled
by `⊥ : WithBot Int`, and — as in pandas, where `x == NaT` is always false —
comparing any actual date against it yields `false`.

Each function of the source file that the claims mention is translated:
`load_data` (sort by (country, date), fill missing numerics with 0),
`calculate_global_stats`, `create_global_trend_chart`'s group-by aggregation,
the date/country filters of `main` and `create_country_comparison_chart`,
`create_top_countries_chart`, `create_vaccination_chart` and
`create_case_fatality_rate_chart`.  The pandas `DataFrame.nlargest(n, col)`
call (with its default `keep='first'`) is modelled by a stable descending
sort followed by `take n`.
-/

namespace CovidDash

/-- One observation record: a row of the loaded, normalized table (after the
Loader filled every missing numeric cell with 0). -/
structure Row where
  country : String
  date : Int
  total_cases : Int
  total_deaths : Int
  total_vaccinations : Int
  new_cases : Int
  new_deaths : Int
deriving DecidableEq

/-- One raw CSV row before normalization: numeric cells may be missing
(`none` models a null/NaN cell). -/
structure RawRow where
  country : String
  date : Int
  total_cases : Option Int
  total_deaths : Option Int
  total_vaccinations : Option Int
  new_cases : Option Int
  new_deaths : Option Int
deriving DecidableEq

/-- The dictionary returned by `calculate_global_stats` (src/app.py:84-91). -/
structure GlobalStats where
  total_cases : Int
  total_deaths : Int
  total_vaccinations : Int
  new_cases : Int
  new_deaths : Int
  latest_date : WithBot Int
deriving DecidableEq

/-- One record of the per-date series built by `create_global_trend_chart`
(src/app.py:96-101). -/
structure TrendRec where
  date : Int
  new_cases : Int
  new_deaths : Int
  total_cases : Int
  total_deaths : Int
deriving DecidableEq

/-- Errors.  `keyError` and `typeError` model the pandas exceptions that
escape unhandled (a crash of the render cycle); `invalidMetric` is the
spec's own error taxonomy (`InvalidMetric`), which no code path of
src/app.py ever produces — it is present so that the spec's claim about it
can be stated and compared against what the code actually does. -/
inductive DashError where
  | keyError (col : String)
  | typeError (col : String)
  | invalidMetric (col : String)
deriving DecidableEq

/-- Sum of a numeric column over a list of rows. -/
def sumBy (f : Row → Int) (l : List Row) : Int :=
  (l.map f).sum

/-- `df['date'].max()` (src/app.py:70,161,209): `⊥` models pandas `NaT`
when the frame is empty. -/
def latestDate? (df : List Row) : WithBot Int :=
  (df.map (fun r => r.date)).maximum

/-- `df[df['date'] == latest_date]` (src/app.py:71,162,210).  When
`latestDate? df = ⊥` (pandas `NaT`) the comparison is false on every row,
exactly as `== NaT` is in pandas. -/
def latestRows (df : List Row) : List Row :=
  df.filter (fun r => decide ((r.date : WithBot Int) = latestDate? df))

/-- `calculate_global_stats` (src/app.py:67-91): sums of the five metric
columns over the latest-date rows, together with the latest date itself. -/
def calculateGlobalStats (df : List Row) : GlobalStats :=
  ⟨sumBy (fun r => r.total_cases) (latestRows df),
   sumBy (fun r => r.total_deaths) (latestRows df),
   sumBy (fun r => r.total_vaccinations) (latestRows df),
   sumBy (fun r => r.new_cases) (latestRows df),
   sumBy (fun r => r.new_deaths) (latestRows df),
   latestDate? df⟩

/-- The descending-key order used by `DataFrame.nlargest(n, col)`:
`a` precedes `b` when `f b ≤ f a`.  Ties (`f a = f b`) are related both
ways, so a stable sort by this relation keeps tied rows in input order —
pandas `keep='first'` semantics. -/
def keyDesc {α β : Type} [LinearOrder β] (f : α → β) : α → α → Prop :=
  fun a b => f b ≤ f a

instance {α β : Type} [LinearOrder β] (f : α → β) : DecidableRel (keyDesc f) :=
  fun a b => decidable_of_iff (f b ≤ f a) Iff.rfl

instance {α β : Type} [LinearOrder β] (f : α → β) : IsTotal α (keyDesc f) :=
  ⟨fun a b => le_total (f b) (f a)⟩

instance {α β : Type} [LinearOrder β] (f : α → β) : IsTrans α (keyDesc f) :=
  ⟨fun _ _ _ hab hbc => le_trans hbc hab⟩

/-- `DataFrame.nlargest(n, col)` with the default `keep='first'`
(src/app.py:164,192,218): stable descending sort by the column, then the
first `n` rows. -/
def nlargestBy {α β : Type} [LinearOrder β] (f : α → β) (n : Nat) (l : List α) : List α :=
  (l.insertionSort (keyDesc f)) |>.take n

/-- The columns of the modelled schema (the minimum column set named by the
external-interface section of the design). -/
def schemaColumns : List String :=
  ["country", "date", "total_cases", "total_deaths", "total_vaccinations",
   "new_cases", "new_deaths"]

/-- Column lookup for the numeric metric columns: `df[metric]` succeeds for
the five numeric columns and fails (`none`) otherwise. -/
def numericKey? (metric : String) : Option (Row → Int) :=
  if metric = "total_cases" then some (fun r => r.total_cases)
  else if metric = "total_deaths" then some (fun r => r.total_deaths)
  else if metric = "total_vaccinations" then some (fun r => r.total_vaccinations)
  else if metric = "new_cases" then some (fun r => r.new_cases)
  else if metric = "new_deaths" then some (fun r => r.new_deaths)
  else none

/-- `create_top_countries_chart` (src/app.py:159-176).  On a numeric metric
it returns the `[['country', metric]]` projection of
`latest_data.nlargest(top_n, metric)`.  On a column name absent from the
schema, `nlargest` raises a `KeyError` that nothing catches; on a
non-numeric schema column it raises a `TypeError`.  Both escape as a crash,
modelled as `Except.error`. -/
def createTopCountriesChart (df : List Row) (metric : String) (topN : Nat) :
    Except DashError (List (String × Int)) :=
  match numericKey? metric with
  | some f =>
      Except.ok ((nlargestBy f topN (latestRows df)).map (fun r => (r.country, f r)))
  | none =>
      if metric ∈ schemaColumns then Except.error (DashError.typeError metric)
      else Except.error (DashError.keyError metric)

/-- The case-fatality rate `total_deaths / total_cases * 100`
(src/app.py:214), as an exact rational. -/
def cfrOf (r : Row) : Rat :=
  (r.total_deaths : Rat) / (r.total_cases : Rat) * 100

/-- `create_case_fatality_rate_chart` (src/app.py:207-218): latest-date
rows, keep those with `total_cases > 1000`, rank by `cfr` descending, top
20.  (The source's `dropna(subset=['cfr'])` is a no-op here: after the
threshold filter `total_cases ≠ 0`, so no `cfr` is NaN.) -/
def createCaseFatalityRateChart (df : List Row) : List Row :=
  nlargestBy cfrOf 20
    ((latestRows df).filter (fun r => decide (1000 < r.total_cases)))

/-- The `vacc_data` frame of `create_vaccination_chart` (src/app.py:182):
`df[df['total_vaccinations'] > 0]`. -/
def vaccRows (df : List Row) : List Row :=
  df.filter (fun r => decide (0 < r.total_vaccinations))

/-- The latest date among rows with positive `total_vaccinations` — the
date `create_vaccination_chart` actually uses (src/app.py:188). -/
def vaccLatestDate? (df : List Row) : WithBot Int :=
  ((vaccRows df).map (fun r => r.date)).maximum

/-- `create_vaccination_chart` (src/app.py:179-192): keep rows with
`total_vaccinations > 0`; if none remain return `None`; otherwise take the
latest date among the remaining rows and the top 20 of that date's rows by
`total_vaccinations`. -/
def createVaccinationChart (df : List Row) : Option (List Row) :=
  if (vaccRows df).isEmpty then none
  else
    some (nlargestBy (fun r => r.total_vaccinations) 20
      ((vaccRows df).filter
        (fun r => decide ((r.date : WithBot Int) = ((vaccRows df).map (fun s => s.date)).maximum))))

/-- `df.groupby('date').agg(sum of the four columns).reset_index()`
(src/app.py:96-101): one record per distinct date, sums within each date
group; pandas `groupby` emits the groups sorted ascending by key. -/
def createGlobalTrendChart (df : List Row) : List TrendRec :=
  (((df.map (fun r => r.date)).dedup).insertionSort (fun a b => a ≤ b)).map
    (fun d =>
      ⟨d, sumBy (fun r => r.new_cases) (df.filter (fun r => decide (r.date = d))),
       sumBy (fun r => r.new_deaths) (df.filter (fun r => decide (r.date = d))),
       sumBy (fun r => r.total_cases) (df.filter (fun r => decide (r.date = d))),
       sumBy (fun r => r.total_deaths) (df.filter (fun r => decide (r.date = d)))⟩)

/-- The date-range filter of `main` (src/app.py:261-263):
`df[(df['date'].dt.date >= start_date) & (df['date'].dt.date <= end_date)]`. -/
def filterByDateRange (s e : Int) (df : List Row) : List Row :=
  df.filter (fun r => decide (s ≤ r.date) && decide (r.date ≤ e))

/-- The country filter of `create_country_comparison_chart`
(src/app.py:144): `df[df['country'].isin(countries)]`; `none` means no
country selection, i.e. all rows pass. -/
def filterByCountries (cs : Option (List String)) (df : List Row) : List Row :=
  match cs with
  | none => df
  | some l => df.filter (fun r => decide (r.country ∈ l))

/-- The combined Filter of the design: date interval first (as `main` does),
then the optional country selection (as the comparison chart does). -/
def filterRows (s e : Int) (cs : Option (List String)) (df : List Row) : List Row :=
  filterByCountries cs (filterByDateRange s e df)

/-- The Loader's fill step (src/app.py:58-59): every missing numeric cell
becomes 0. -/
def fillRow (r : RawRow) : Row :=
  ⟨r.country, r.date, r.total_cases.getD 0, r.total_deaths.getD 0,
   r.total_vaccinations.getD 0, r.new_cases.getD 0, r.new_deaths.getD 0⟩

/-- Serialization of one row for `df.to_csv(index=False)` (src/app.py:375):
every cell of the in-memory row is present in the export. -/
def toRaw (r : Row) : RawRow :=
  ⟨r.country, r.date, some r.total_cases, some r.total_deaths,
   some r.total_vaccinations, some r.new_cases, some r.new_deaths⟩

/-- The `sort_values(['country', 'date'])` order (src/app.py:55):
lexicographic on country, then date. -/
def rawLe (a b : RawRow) : Prop :=
  a.country < b.country ∨ (a.country = b.country ∧ a.date ≤ b.date)

instance : DecidableRel rawLe :=
  fun a b => decidable_of_iff
    (a.country < b.country ∨ (a.country = b.country ∧ a.date ≤ b.date)) Iff.rfl

instance : IsTotal RawRow rawLe :=
  ⟨fun a b => by
    rcases lt_trichotomy a.country b.country with h | h | h
    · exact Or.inl (Or.inl h)
    · rcases le_total a.date b.date with hd | hd
      · exact Or.inl (Or.inr ⟨h, hd⟩)
      · exact Or.inr (Or.inr ⟨h.symm, hd⟩)
    · exact Or.inr (Or.inl h)⟩

instance : IsTrans RawRow rawLe :=
  ⟨fun a b c hab hbc => by
    rcases hab with h1 | ⟨e1, d1⟩
    · rcases hbc with h2 | ⟨e2, _⟩
      · exact Or.inl (h1.trans h2)
      · exact Or.inl (e2 ▸ h1)
    · rcases hbc with h2 | ⟨e2, d2⟩
      · exact Or.inl (e1 ▸ h2)
      · exact Or.inr ⟨e1.trans e2, d1.trans d2⟩⟩

/-- `load_data` (src/app.py:46-64) after the external CSV fetch/parse:
sort ascending by (country, date), then fill missing numeric cells with 0.
The raw parsed rows stand for the fetched payload. -/
def loadData (src : List RawRow) : List Row :=
  (src.insertionSort rawLe).map fillRow

/-- The export of the Data Explorer (src/app.py:375): `to_csv(index=False)`
re-serializes every row, in order, with all cells present. -/
def exportData (df : List Row) : List RawRow :=
  df.map toRaw

/-! ### Concrete example data (used by witnesses and counterexamples) -/

/-- Country A of the spec's CFR scenario: cases 5000, deaths 100. -/
def rowA : Row := ⟨"A", 10, 5000, 100, 0, 0, 0⟩

/-- Country B of the spec's CFR scenario: cases 500, deaths 50. -/
def rowB : Row := ⟨"B", 10, 500, 50, 0, 0, 0⟩

/-- Country C of the spec's CFR scenario: cases 10000, deaths 50. -/
def rowC : Row := ⟨"C", 10, 10000, 50, 0, 0, 0⟩

/-- The spec's three-row CFR scenario, all rows at the latest date. -/
def dsABC : List Row := [rowA, rowB, rowC]

/-- A row with vaccinations reported, at the earlier date 5. -/
def rowX : Row := ⟨"X", 5, 1, 0, 10, 0, 0⟩

/-- A later row (date 9) with no vaccinations reported. -/
def rowY : Row := ⟨"Y", 9, 2, 0, 0, 0, 0⟩

/-- Dataset whose vaccination data stops before its overall latest date. -/
def dsXY : List Row := [rowX, rowY]

/-! ### Stability of the `nlargest` model

`nlargestBy f n` is a stable descending selection: restricted to any one
key value `v`, its output is a sublist (hence an order-preserving
subsequence) of the input restricted to `v`. -/

theorem filter_key_orderedInsert_of_eq {α β : Type} [LinearOrder β] (f : α → β) (v : β)
    (a : α) (l : List α) (h : f a = v) :
    (List.orderedInsert (keyDesc f) a l).filter (fun x => decide (f x = v)) =
      a :: l.filter (fun x => decide (f x = v)) := by
  induction l with
  | nil => simp [h]
  | cons b t ih =>
    rw [List.orderedInsert]
    by_cases hr : keyDesc f a b
    · rw [if_pos hr]
      simp [List.filter_cons, h]
    · rw [if_neg hr]
      have hb : ¬ (f b = v) := by
        intro hbv
        exact hr (le_of_eq (hbv.trans h.symm))
      simp [List.filter_cons, hb, ih, h]

theorem filter_key_orderedInsert_of_ne {α β : Type} [LinearOrder β] (f : α → β) (v : β)
    (a : α) (l : List α) (h : ¬ (f a = v)) :
    (List.orderedInsert (keyDesc f) a l).filter (fun x => decide (f x = v)) =
      l.filter (fun x => decide (f x = v)) := by
  induction l with
  | nil => simp [h]
  | cons b t ih =>
    rw [List.orderedInsert]
    by_cases hr : keyDesc f a b
    · rw [if_pos hr]
      simp [List.filter_cons, h]
    · rw [if_neg hr]
      simp [List.filter_cons, ih]

theorem sortDesc_filter_key {α β : Type} [LinearOrder β] (f : α → β) (v : β) (l : List α) :
    (l.insertionSort (keyDesc f)).filter (fun x => decide (f x = v)) =
      l.filter (fun x => decide (f x = v)) := by
  induction l with
  | nil => rfl
  | cons a t ih =>
    rw [List.insertionSort]
    by_cases h : f a = v
    · rw [filter_key_orderedInsert_of_eq f v a _ h, ih]
      simp [List.filter_cons, h]
    · rw [filter_key_orderedInsert_of_ne f v a _ h, ih]
      simp [List.filter_cons, h]

theorem nlargestBy_filter_key_sublist {α β : Type} [LinearOrder β] (f : α → β) (n : Nat)
    (v : β) (l : List α) :
    ((nlargestBy f n l).filter (fun x => decide (f x = v))).Sublist
      (l.filter (fun x => decide (f x = v))) := by
  rw [← sortDesc_filter_key f v l]
  exact List.Sublist.filter _ (List.take_sublist n _)

theorem nlargestBy_length {α β : Type} [LinearOrder β] (f : α → β) (n : Nat) (l : List α) :
    (nlargestBy f n l).length = min n l.length := by
  simp [nlargestBy, List.length_insertionSort]

theorem mem_of_mem_nlargestBy {α β : Type} [LinearOrder β] {f : α → β} {n : Nat}
    {l : List α} {x : α} (hx : x ∈ nlargestBy f n l) : x ∈ l :=
  (List.mem_insertionSort (keyDesc f)).mp (List.take_subset n _ hx)

theorem nlargestBy_sorted {α β : Type} [LinearOrder β] (f : α → β) (n : Nat) (l : List α) :
    (nlargestBy f n l).Sorted (keyDesc f) :=
  List.Pairwise.sublist (List.take_sublist n _) (List.sorted_insertionSort (keyDesc f) l)

/-! ### C1: behaviour of the global snapshot on an empty Dataset -/

/-- C1 (counterexample): on a Dataset with zero rows,
`calculate_global_stats` does **not** fail: `df['date'].max()` is `NaT`
(`⊥`), the `date == NaT` selection is empty, and every pandas sum of an
empty column is 0 — so the function returns a snapshot with all five
metrics zero, the very thing the claim says must not happen.  No
`EmptyDataset` error exists anywhere in src/app.py. -/
theorem calculateGlobalStats_nil_counterexample :
    calculateGlobalStats [] = ⟨0, 0, 0, 0, 0, (⊥ : WithBot Int)⟩ := by
  rfl

/-- C1 (amended): for a Dataset with zero rows, the global-snapshot
aggregation returns a snapshot whose five metrics are all 0 and whose
`latest_date` is the missing date `NaT` (`⊥`); it does not fail with an
`EmptyDataset` error. -/
theorem calculateGlobalStats_empty_returns_zeroed (df : List Row)
    (h : ∀ r : Row, r ∉ df) :
    calculateGlobalStats df = ⟨0, 0, 0, 0, 0, (⊥ : WithBot Int)⟩ := by
  have hnil : df = [] := List.eq_nil_iff_forall_not_mem.mpr h
  subst hnil
  rfl

/-- C1 witness: the amended theorem applied to the empty Dataset. -/
theorem calculateGlobalStats_empty_returns_zeroed_witness :
    (∀ r : Row, r ∉ ([] : List Row)) ∧
      calculateGlobalStats [] = ⟨0, 0, 0, 0, 0, (⊥ : WithBot Int)⟩ :=
  ⟨fun r => List.not_mem_nil r,
   calculateGlobalStats_empty_returns_zeroed [] (fun r => List.not_mem_nil r)⟩

/-! ### C2: the global snapshot on a non-empty Dataset -/

/-- C2: for every non-empty Dataset, the snapshot's `latest_date` is the
maximum date present (attained by some row and at least every row's date),
and each of the five metrics is the sum of its column over exactly the
rows whose date equals that maximum. -/
theorem calculateGlobalStats_latest_date_sums (df : List Row) (hdf : df ≠ []) :
    ∃ m : Int,
      (calculateGlobalStats df).latest_date = (m : WithBot Int) ∧
      (∃ r ∈ df, r.date = m) ∧
      (∀ r ∈ df, r.date ≤ m) ∧
      (calculateGlobalStats df).total_cases =
        sumBy (fun r => r.total_cases) (df.filter (fun r => decide (r.date = m))) ∧
      (calculateGlobalStats df).total_deaths =
        sumBy (fun r => r.total_deaths) (df.filter (fun r => decide (r.date = m))) ∧
      (calculateGlobalStats df).total_vaccinations =
        sumBy (fun r => r.total_vaccinations) (df.filter (fun r => decide (r.date = m))) ∧
      (calculateGlobalStats df).new_cases =
        sumBy (fun r => r.new_cases) (df.filter (fun r => decide (r.date = m))) ∧
      (calculateGlobalStats df).new_deaths =
        sumBy (fun r => r.new_deaths) (df.filter (fun r => decide (r.date = m))) := by
  have hne : df.map (fun r => r.date) ≠ [] := by
    intro h
    exact hdf (List.map_eq_nil_iff.mp h)
  have hbot : latestDate? df ≠ ⊥ := List.maximum_ne_bot_of_ne_nil hne
  obtain ⟨m, hm⟩ := WithBot.ne_bot_iff_exists.mp hbot
  have hm' : (df.map (fun r => r.date)).maximum = (m : WithBot Int) := hm.symm
  have hld : latestDate? df = (m : WithBot Int) := hm'
  obtain ⟨hmem, hle⟩ := List.maximum_eq_coe_iff.mp hm'
  have hfil : latestRows df = df.filter (fun r => decide (r.date = m)) := by
    apply List.filter_congr
    intro r _hr
    rw [decide_eq_decide, hld]
    exact WithBot.coe_eq_coe
  refine ⟨m, hld, ?_, ?_, ?_, ?_, ?_, ?_, ?_⟩
  · simpa using hmem
  · intro r hr
    exact hle _ (List.mem_map_of_mem _ hr)
  all_goals
    show sumBy _ (latestRows df) = _
    rw [hfil]

/-- C2 witness: the theorem applied to the three-row example Dataset. -/
theorem calculateGlobalStats_latest_date_sums_witness :
    dsABC ≠ [] ∧
      ∃ m : Int,
        (calculateGlobalStats dsABC).latest_date = (m : WithBot Int) ∧
        (∃ r ∈ dsABC, r.date = m) ∧
        (∀ r ∈ dsABC, r.date ≤ m) ∧
        (calculateGlobalStats dsABC).total_cases =
          sumBy (fun r => r.total_cases) (dsABC.filter (fun r => decide (r.date = m))) ∧
        (calculateGlobalStats dsABC).total_deaths =
          sumBy (fun r => r.total_deaths) (dsABC.filter (fun r => decide (r.date = m))) ∧
        (calculateGlobalStats dsABC).total_vaccinations =
          sumBy (fun r => r.total_vaccinations) (dsABC.filter (fun r => decide (r.date = m))) ∧
        (calculateGlobalStats dsABC).new_cases =
          sumBy (fun r => r.new_cases) (dsABC.filter (fun r => decide (r.date = m))) ∧
        (calculateGlobalStats dsABC).new_deaths =
          sumBy (fun r => r.new_deaths) (dsABC.filter (fun r => decide (r.date = m))) :=
  ⟨by decide, calculateGlobalStats_latest_date_sums dsABC (by decide)⟩

/-! ### C3: unknown metric names in the Top-N ranking -/

/-- C3 (counterexample): passing the non-schema metric name `"population"`
to the Top-N ranking makes `nlargest` raise a `KeyError` that no code in
src/app.py catches — an unhandled crash, not the spec's `InvalidMetric`
rejection (which no code path produces). -/
theorem createTopCountriesChart_unknown_metric_counterexample :
    createTopCountriesChart dsABC "population" 15 =
        Except.error (DashError.keyError "population") ∧
      DashError.keyError "population" ≠ DashError.invalidMetric "population" :=
  ⟨rfl, by decide⟩

/-- C3 (amended): for every Dataset, calling the Top-N ranking with a
metric name that is not a column of the schema makes the underlying
`nlargest` raise an unhandled `KeyError` (a crash of the render cycle) —
not an `InvalidMetric` rejection and not an empty result. -/
theorem createTopCountriesChart_unknown_metric_keyError (df : List Row)
    (metric : String) (n : Nat) (h : metric ∉ schemaColumns) :
    createTopCountriesChart df metric n = Except.error (DashError.keyError metric) := by
  simp only [schemaColumns, List.mem_cons, List.not_mem_nil, or_false, not_or] at h
  obtain ⟨h1, h2, h3, h4, h5, h6, h7⟩ := h
  simp [createTopCountriesChart, numericKey?, schemaColumns, h1, h2, h3, h4, h5, h6, h7]

/-- C3 witness: the amended theorem applied to a concrete Dataset and the
concrete unknown metric name `"cases"`. -/
theorem createTopCountriesChart_unknown_metric_keyError_witness :
    ("cases" ∉ schemaColumns) ∧
      createTopCountriesChart dsXY "cases" 15 =
        Except.error (DashError.keyError "cases") :=
  ⟨by decide, createTopCountriesChart_unknown_metric_keyError dsXY "cases" 15 (by decide)⟩

/-! ### C4: rows tied on the ranking metric keep their input order -/

/-- C4: stability of the rankings.  For the Top-N ranking with any valid
metric, restricting the output to any one metric value `v` yields a
sublist of the latest-date rows with that value (projected to
(country, value) exactly as the chart is) — so rows tied on the metric
retain their relative input order; likewise the CFR ranking restricted to
any one `cfr` value is a sublist of the thresholded latest-date rows with
that value. -/
theorem ranking_ties_input_order_stable :
    (∀ (df : List Row) (metric : String) (f : Row → Int) (n : Nat)
        (out : List (String × Int)) (v : Int),
      numericKey? metric = some f →
      createTopCountriesChart df metric n = Except.ok out →
      (out.filter (fun p => decide (p.2 = v))).Sublist
        (((latestRows df).filter (fun r => decide (f r = v))).map
          (fun r => (r.country, f r)))) ∧
    (∀ (df : List Row) (v : Rat),
      ((createCaseFatalityRateChart df).filter (fun r => decide (cfrOf r = v))).Sublist
        (((latestRows df).filter (fun r => decide (1000 < r.total_cases))).filter
          (fun r => decide (cfrOf r = v)))) := by
  constructor
  · intro df metric f n out v hkey hok
    rw [createTopCountriesChart, hkey] at hok
    have hout : out = (nlargestBy f n (latestRows df)).map (fun r => (r.country, f r)) :=
      (Except.ok.injEq _ _).mp hok.symm
    subst hout
    rw [List.filter_map]
    exact List.Sublist.map _ (nlargestBy_filter_key_sublist f n v (latestRows df))
  · intro df v
    exact nlargestBy_filter_key_sublist cfrOf 20 v _

/-- C4 witness: the Top-N half applied to the example Dataset, where
countries B and C are tied on `total_deaths = 50` and B (earlier in the
input) precedes C in the output. -/
theorem ranking_ties_input_order_stable_witness :
    numericKey? "total_deaths" = some (fun r => r.total_deaths) ∧
      createTopCountriesChart dsABC "total_deaths" 3 =
        Except.ok [("A", 100), ("B", 50), ("C", 50)] ∧
      ([("A", (100 : Int)), ("B", 50), ("C", 50)].filter
          (fun p => decide (p.2 = (50 : Int)))).Sublist
        (((latestRows dsABC).filter (fun r => decide (r.total_deaths = (50 : Int)))).map
          (fun r => (r.country, r.total_deaths))) :=
  ⟨rfl, rfl,
   ranking_ties_input_order_stable.1 dsABC "total_deaths" (fun r => r.total_deaths) 3
     [("A", 100), ("B", 50), ("C", 50)] 50 rfl rfl⟩

/-! ### C5: the Top-N ranking is size-bounded -/

/-- On a list of rows sharing one date, distinct (country, date) keys give
distinct countries. -/
theorem nodup_country_of_constant_date (L : List Row)
    (hk : (L.map (fun r => (r.country, r.date))).Nodup)
    (hd : ∀ a ∈ L, ∀ b ∈ L, a.date = b.date) :
    (L.map (fun r => r.country)).Nodup := by
  induction L with
  | nil => simp
  | cons a t ih =>
    simp only [List.map_cons, List.nodup_cons] at hk ⊢
    refine ⟨?_, ih hk.2 (fun x hx y hy =>
      hd x (List.mem_cons_of_mem a hx) y (List.mem_cons_of_mem a hy))⟩
    intro hc
    obtain ⟨b, hb, hbc⟩ := List.mem_map.mp hc
    apply hk.1
    refine List.mem_map.mpr ⟨b, hb, ?_⟩
    have hbd : b.date = a.date :=
      hd b (List.mem_cons_of_mem a hb) a (List.mem_cons_self a t)
    rw [hbc, hbd]

/-- C5: for every Dataset whose (country, date) keys are unique — the
Dataset invariant of the data model — a successful Top-N ranking returns
exactly `min n (number of distinct countries present at the latest date)`
rows. -/
theorem createTopCountriesChart_size_bound (df : List Row) (metric : String)
    (f : Row → Int) (n : Nat) (out : List (String × Int))
    (hkey : numericKey? metric = some f)
    (hnodup : (df.map (fun r => (r.country, r.date))).Nodup)
    (hok : createTopCountriesChart df metric n = Except.ok out) :
    out.length = min n ((latestRows df).map (fun r => r.country)).dedup.length := by
  rw [createTopCountriesChart, hkey] at hok
  have hout : out = (nlargestBy f n (latestRows df)).map (fun r => (r.country, f r)) :=
    (Except.ok.injEq _ _).mp hok.symm
  subst hout
  have hsub : ((latestRows df).map (fun r => (r.country, r.date))).Sublist
      (df.map (fun r => (r.country, r.date))) :=
    List.Sublist.map _ (List.filter_sublist df)
  have hkL : ((latestRows df).map (fun r => (r.country, r.date))).Nodup :=
    List.Nodup.sublist hsub hnodup
  have hdates : ∀ a ∈ latestRows df, ∀ b ∈ latestRows df, a.date = b.date := by
    intro a ha b hb
    rw [latestRows, List.mem_filter] at ha hb
    have ha2 := of_decide_eq_true ha.2
    have hb2 := of_decide_eq_true hb.2
    exact WithBot.coe_eq_coe.mp (ha2.trans hb2.symm)
  have hcn := nodup_country_of_constant_date _ hkL hdates
  rw [List.length_map, nlargestBy_length, List.dedup_eq_self.mpr hcn,
    List.length_map]

/-- C5 witness: the theorem applied to the three-country example with
`n = 2`: the ranking returns `min 2 3 = 2` rows. -/
theorem createTopCountriesChart_size_bound_witness :
    numericKey? "total_cases" = some (fun r => r.total_cases) ∧
      (dsABC.map (fun r => (r.country, r.date))).Nodup ∧
      createTopCountriesChart dsABC "total_cases" 2 =
        Except.ok [("C", 10000), ("A", 5000)] ∧
      ([(("C" : String), (10000 : Int)), ("A", 5000)].length =
        min 2 ((latestRows dsABC).map (fun r => r.country)).dedup.length) :=
  ⟨rfl, by decide, rfl,
   createTopCountriesChart_size_bound dsABC "total_cases" (fun r => r.total_cases) 2
     [("C", 10000), ("A", 5000)] rfl (by decide) rfl⟩

/-! ### C6: the Filter returns exactly the matching rows, in input order -/

/-- C6: for every Dataset, inclusive date interval and optional country
set, the Filter equals the single pass keeping exactly the rows whose date
lies in the interval and whose country is in the set (all countries when
no set is given); it is a subsequence of the Dataset (relative order of
matching rows unchanged); and an empty result is an ordinary value — with
an empty interval the Filter returns `[]` rather than failing. -/
theorem filterRows_exact_and_order_preserving (df : List Row) (s e : Int)
    (cs : Option (List String)) :
    filterRows s e cs df =
      df.filter (fun r =>
        decide (s ≤ r.date) && decide (r.date ≤ e) &&
          (match cs with
           | none => true
           | some l => decide (r.country ∈ l))) ∧
    (filterRows s e cs df).Sublist df ∧
    filterRows 1 0 cs df = [] := by
  refine ⟨?_, ?_, ?_⟩
  · cases cs with
    | none => simp [filterRows, filterByCountries, filterByDateRange]
    | some l =>
        simp only [filterRows, filterByCountries, filterByDateRange, List.filter_filter]
        apply List.filter_congr
        intro r _
        rw [Bool.and_comm]
  · cases cs with
    | none => exact List.filter_sublist df
    | some l => exact (List.filter_sublist _).trans (List.filter_sublist df)
  · have hempty : filterByDateRange 1 0 df = [] := by
      rw [filterByDateRange]
      apply List.filter_eq_nil_iff.mpr
      intro r _
      simp only [Bool.and_eq_true, decide_eq_true_eq, not_and]
      intro h1 h2
      omega
    rw [filterRows, hempty]
    cases cs <;> rfl

/-! ### C7: the case-fatality-rate ranking -/

/-- C7: every row the CFR ranking returns is a latest-date row with
`total_cases` strictly above 1000; the returned rows are ordered by
`cfr = total_deaths / total_cases * 100` descending; and on the spec's
three-row scenario the ranking returns exactly A and C, with A
(`cfr = 2`) ranked above C (`cfr = 1/2`) and B (cases 500) excluded. -/
theorem createCaseFatalityRateChart_spec :
    (∀ (df : List Row) (r : Row), r ∈ createCaseFatalityRateChart df →
        (r.date : WithBot Int) = latestDate? df ∧ 1000 < r.total_cases) ∧
    (∀ df : List Row, (createCaseFatalityRateChart df).Sorted (keyDesc cfrOf)) ∧
    createCaseFatalityRateChart dsABC = [rowA, rowC] ∧
    cfrOf rowA = 2 ∧ cfrOf rowC = 1 / 2 := by
  refine ⟨?_, ?_, ?_, ?_, ?_⟩
  · intro df r hr
    have h1 := mem_of_mem_nlargestBy hr
    rw [List.mem_filter] at h1
    have h2 := h1.1
    rw [latestRows, List.mem_filter] at h2
    exact ⟨of_decide_eq_true h2.2, of_decide_eq_true h1.2⟩
  · intro df
    exact nlargestBy_sorted cfrOf 20 _
  · show nlargestBy cfrOf 20
        ((latestRows dsABC).filter (fun r => decide (1000 < r.total_cases))) = [rowA, rowC]
    have hf : (latestRows dsABC).filter (fun r => decide (1000 < r.total_cases)) =
        [rowA, rowC] := by decide
    rw [hf]
    have hc : cfrOf rowC ≤ cfrOf rowA := by
      norm_num [cfrOf, rowA, rowC]
    simp [nlargestBy, keyDesc, hc]
  · norm_num [cfrOf, rowA]
  · norm_num [cfrOf, rowC]

/-- C7 witness: the first conjunct applied to the scenario Dataset at the
returned row A. -/
theorem createCaseFatalityRateChart_spec_witness :
    rowA ∈ createCaseFatalityRateChart dsABC ∧
      ((rowA.date : WithBot Int) = latestDate? dsABC ∧ 1000 < rowA.total_cases) := by
  have hmem : rowA ∈ createCaseFatalityRateChart dsABC := by
    rw [createCaseFatalityRateChart_spec.2.2.1]
    exact List.mem_cons_self _ _
  exact ⟨hmem, createCaseFatalityRateChart_spec.1 dsABC rowA hmem⟩

/-! ### C8: the global daily trend is the group-by-date aggregation -/

/-- C8: the trend series has one record per distinct date of the Dataset
(its date column is strictly sorted ascending and carries exactly the
Dataset's dates), and each record's four fields are the sums of the
corresponding columns over exactly the rows with that record's date. -/
theorem createGlobalTrendChart_groupby (df : List Row) :
    ((createGlobalTrendChart df).map (fun t => t.date)).Sorted (· < ·) ∧
    (∀ d : Int, d ∈ (createGlobalTrendChart df).map (fun t => t.date) ↔
      d ∈ df.map (fun r => r.date)) ∧
    (∀ t ∈ createGlobalTrendChart df,
      t.new_cases =
        sumBy (fun r => r.new_cases) (df.filter (fun r => decide (r.date = t.date))) ∧
      t.new_deaths =
        sumBy (fun r => r.new_deaths) (df.filter (fun r => decide (r.date = t.date))) ∧
      t.total_cases =
        sumBy (fun r => r.total_cases) (df.filter (fun r => decide (r.date = t.date))) ∧
      t.total_deaths =
        sumBy (fun r => r.total_deaths) (df.filter (fun r => decide (r.date = t.date)))) := by
  have hdates : (createGlobalTrendChart df).map (fun t => t.date) =
      ((df.map (fun r => r.date)).dedup).insertionSort (fun a b => a ≤ b) := by
    rw [createGlobalTrendChart, List.map_map]
    show List.map (fun d => d) _ = _
    simp
  refine ⟨?_, ?_, ?_⟩
  · rw [hdates]
    have hsorted : (((df.map (fun r => r.date)).dedup).insertionSort
        (fun a b => a ≤ b)).Sorted (fun a b : Int => a ≤ b) :=
      List.sorted_insertionSort _ _
    have hnodup : (((df.map (fun r => r.date)).dedup).insertionSort
        (fun a b => a ≤ b)).Nodup :=
      (List.Perm.nodup_iff (List.perm_insertionSort _ _)).mpr (List.nodup_dedup _)
    exact List.Sorted.lt_of_le hsorted hnodup
  · intro d
    rw [hdates, List.mem_insertionSort, List.mem_dedup]
  · intro t ht
    rw [createGlobalTrendChart] at ht
    obtain ⟨d, _hd, rfl⟩ := List.mem_map.mp ht
    exact ⟨rfl, rfl, rfl, rfl⟩

/-- C8 witness: the sums conjunct applied to the two-date example
Dataset at its date-5 record. -/
theorem createGlobalTrendChart_groupby_witness :
    (⟨5, 0, 0, 1, 0⟩ : TrendRec) ∈ createGlobalTrendChart dsXY ∧
      ((⟨5, 0, 0, 1, 0⟩ : TrendRec).new_cases =
        sumBy (fun r => r.new_cases)
          (dsXY.filter (fun r => decide (r.date = (⟨5, 0, 0, 1, 0⟩ : TrendRec).date))) ∧
       (⟨5, 0, 0, 1, 0⟩ : TrendRec).new_deaths =
        sumBy (fun r => r.new_deaths)
          (dsXY.filter (fun r => decide (r.date = (⟨5, 0, 0, 1, 0⟩ : TrendRec).date))) ∧
       (⟨5, 0, 0, 1, 0⟩ : TrendRec).total_cases =
        sumBy (fun r => r.total_cases)
          (dsXY.filter (fun r => decide (r.date = (⟨5, 0, 0, 1, 0⟩ : TrendRec).date))) ∧
       (⟨5, 0, 0, 1, 0⟩ : TrendRec).total_deaths =
        sumBy (fun r => r.total_deaths)
          (dsXY.filter (fun r => decide (r.date = (⟨5, 0, 0, 1, 0⟩ : TrendRec).date)))) :=
  ⟨by decide, (createGlobalTrendChart_groupby dsXY).2.2 ⟨5, 0, 0, 1, 0⟩ (by decide)⟩

/-! ### C9: the load → export → load round trip -/

/-- Refilling a fully-present exported row is the identity. -/
theorem fillRow_toRaw (r : Row) : fillRow (toRaw r) = r := rfl

/-- C9: the export reproduces the in-memory Dataset exactly — reading its
cells back row by row (in order) recovers the Dataset — and loading the
export of a loaded Dataset yields the loaded Dataset again:
`Load(Export(Load(src))) = Load(src)` for every source. -/
theorem loadData_export_roundtrip :
    (∀ df : List Row, (exportData df).map fillRow = df) ∧
    (∀ src : List RawRow, loadData (exportData (loadData src)) = loadData src) := by
  have hfill : ∀ df : List Row, (exportData df).map fillRow = df := by
    intro df
    rw [exportData, List.map_map]
    have hcomp : fillRow ∘ toRaw = id := funext fun r => fillRow_toRaw r
    rw [hcomp, List.map_id]
  refine ⟨hfill, ?_⟩
  intro src
  have hs : (src.insertionSort rawLe).Sorted rawLe :=
    List.sorted_insertionSort rawLe src
  show ((((src.insertionSort rawLe).map fillRow).map toRaw).insertionSort rawLe).map
      fillRow = (src.insertionSort rawLe).map fillRow
  rw [List.map_map]
  have hs2 : ((src.insertionSort rawLe).map (toRaw ∘ fillRow)).Sorted rawLe :=
    List.Pairwise.map _ (fun a b h => h) hs
  rw [List.Sorted.insertionSort_eq hs2, List.map_map]
  have hcomp : fillRow ∘ (toRaw ∘ fillRow) = fillRow := funext fun x => rfl
  rw [hcomp]

/-! ### C10: the vaccination ranking's own latest date -/

/-- C10: the vaccination chart returns `none` exactly when no row of the
Dataset has positive `total_vaccinations`; when it returns a ranking,
every returned row has positive `total_vaccinations` and carries the
vaccination data's own latest date (the maximum date among rows with
`total_vaccinations > 0`); and on the example Dataset that date (5) is
strictly earlier than the Dataset's overall latest date (9). -/
theorem createVaccinationChart_spec :
    (∀ df : List Row,
      createVaccinationChart df = none ↔ ∀ r ∈ df, r.total_vaccinations ≤ 0) ∧
    (∀ (df : List Row) (out : List Row), createVaccinationChart df = some out →
      ∀ r ∈ out, 0 < r.total_vaccinations ∧
        (r.date : WithBot Int) = vaccLatestDate? df) ∧
    (vaccLatestDate? dsXY = ((5 : Int) : WithBot Int) ∧
      latestDate? dsXY = ((9 : Int) : WithBot Int) ∧
      (5 : Int) < 9 ∧
      createVaccinationChart dsXY = some [rowX]) := by
  refine ⟨?_, ?_, by decide, by decide, by decide, by decide⟩
  · intro df
    rw [createVaccinationChart]
    by_cases h : (vaccRows df).isEmpty
    · rw [if_pos h]
      constructor
      · intro _ r hr
        have hnil := List.isEmpty_iff.mp h
        have hnr := List.filter_eq_nil_iff.mp hnil r hr
        simp only [decide_eq_true_eq] at hnr
        omega
      · intro _
        rfl
    · rw [if_neg h]
      constructor
      · intro hcontra
        exact absurd hcontra (by simp)
      · intro hall
        apply absurd _ h
        rw [vaccRows, List.isEmpty_iff]
        apply List.filter_eq_nil_iff.mpr
        intro r hr
        simp only [decide_eq_true_eq]
        exact not_lt.mpr (hall r hr)
  · intro df out hsome r hr
    rw [createVaccinationChart] at hsome
    by_cases h : (vaccRows df).isEmpty
    · rw [if_pos h] at hsome
      exact absurd hsome (by simp)
    · rw [if_neg h] at hsome
      have hout := Option.some.inj hsome
      rw [← hout] at hr
      have h1 := mem_of_mem_nlargestBy hr
      rw [List.mem_filter] at h1
      have h2 := h1.1
      rw [vaccRows, List.mem_filter] at h2
      exact ⟨of_decide_eq_true h2.2, of_decide_eq_true h1.2⟩

/-- C10 witness: the some-case conjunct applied to the example Dataset. -/
theorem createVaccinationChart_spec_witness :
    createVaccinationChart dsXY = some [rowX] ∧
      (0 < rowX.total_vaccinations ∧
        (rowX.date : WithBot Int) = vaccLatestDate? dsXY) :=
  ⟨by decide,
   createVaccinationChart_spec.2.1 dsXY [rowX] (by decide) rowX (by decide)⟩

end CovidDash
